import Mathlib

/-!
Verification of the date/time calculation core of the Calendar-In-Tkinter
repository (src/TimeLogic.py, rendered by src/code/GUIElements.py).

The Python code is shallowly embedded: dates and clock times become
structures, `datetime` arithmetic becomes exact integer arithmetic on day
ordinals (Python's proleptic-Gregorian `toordinal`), Python floats carrying
exact values become rationals, and every place where the Python code raises
(`ValueError`, `KeyError`, `IndexError`) becomes an `Option`/`none` result.
-/

namespace TimeLogic

/-- Calendar date value as held by Python `datetime.date`: (year, month, day). -/
structure Date where
  year : Nat
  month : Nat
  day : Nat
  deriving DecidableEq

/-- Python `datetime._is_leap(year)`: `year % 4 == 0 and (year % 100 != 0 or year % 400 == 0)`. -/
def isLeap (y : Nat) : Prop := y % 4 = 0 ∧ (y % 100 ≠ 0 ∨ y % 400 = 0)

instance (y : Nat) : Decidable (isLeap y) := by unfold isLeap; infer_instance

/-- Python `datetime._days_in_month`: the `_DAYS_IN_MONTH` table, with February
adjusted in leap years. Months outside 1..12 are given 0 days (they never
arise from a parsed date). -/
def daysInMonth (y m : Nat) : Nat :=
  if m = 2 ∧ isLeap y then 29
  else match m with
    | 1 => 31 | 2 => 28 | 3 => 31 | 4 => 30 | 5 => 31 | 6 => 30
    | 7 => 31 | 8 => 31 | 9 => 30 | 10 => 31 | 11 => 30 | 12 => 31
    | _ => 0

/-- Python `datetime._days_before_month`: the `_DAYS_BEFORE_MONTH` table plus
the leap correction for months after February. -/
def daysBeforeMonth (y m : Nat) : Nat :=
  (match m with
    | 1 => 0 | 2 => 31 | 3 => 59 | 4 => 90 | 5 => 120 | 6 => 151
    | 7 => 181 | 8 => 212 | 9 => 243 | 10 => 273 | 11 => 304 | 12 => 334
    | _ => 365)
  + (if 2 < m ∧ isLeap y then 1 else 0)

/-- Python `datetime._days_before_year`. -/
def daysBeforeYear (y : Nat) : Nat :=
  (y - 1) * 365 + (y - 1) / 4 - (y - 1) / 100 + (y - 1) / 400

/-- Python `datetime.date.toordinal()`: proleptic-Gregorian day number, with
0001-01-01 as day 1. All `datetime` subtraction and `timedelta` day addition
in TimeLogic.py is arithmetic on this number. -/
def Date.toOrdinal (d : Date) : Nat :=
  daysBeforeYear d.year + daysBeforeMonth d.year d.month + d.day

/-- Validity of a parsed date (what `strptime(s, "%Y-%m-%d")` guarantees).
Python additionally caps years at 9999; no statement below needs the cap. -/
def Date.valid (d : Date) : Prop :=
  1 ≤ d.year ∧ 1 ≤ d.month ∧ d.month ≤ 12 ∧ 1 ≤ d.day ∧ d.day ≤ daysInMonth d.year d.month

instance (d : Date) : Decidable d.valid := by unfold Date.valid; infer_instance

/-- Comparison of the `datetime` objects built by `strptime("%Y-%m-%d")`:
lexicographic on (year, month, day); the time-of-day parts are all midnight. -/
def Date.lt (a b : Date) : Prop :=
  a.year < b.year ∨ (a.year = b.year ∧ (a.month < b.month ∨ (a.month = b.month ∧ a.day < b.day)))

instance (a b : Date) : Decidable (Date.lt a b) := by unfold Date.lt; infer_instance

/-- DateCalc.day_calculator (TimeLogic.py lines 17-27): raises ValueError
(`none`) when `end_date < start_date`, else returns `(end_date - start_date).days`. -/
def day_calculator (start_date end_date : Date) : Option Int :=
  if Date.lt end_date start_date then none
  else some ((end_date.toOrdinal : Int) - start_date.toOrdinal)

/-- DateCalc.second_calculator (TimeLogic.py lines 29-36):
`(start_date - end_date).total_seconds()`. Date-only datetimes differ by a
whole number of days, so the float result is the exact integer below
(magnitudes stay far under 2^53). -/
def second_calculator (start_date end_date : Date) : Int :=
  ((start_date.toOrdinal : Int) - end_date.toOrdinal) * 86400

/-- Successor date: the calendar rollover step underlying day addition. -/
def nextDate (d : Date) : Date :=
  if d.day < daysInMonth d.year d.month then ⟨d.year, d.month, d.day + 1⟩
  else if d.month < 12 then ⟨d.year, d.month + 1, 1⟩
  else ⟨d.year + 1, 1, 1⟩

/-- Predecessor date, for negative day increments. -/
def prevDate (d : Date) : Date :=
  if 1 < d.day then ⟨d.year, d.month, d.day - 1⟩
  else if 1 < d.month then ⟨d.year, d.month - 1, daysInMonth d.year (d.month - 1)⟩
  else ⟨d.year - 1, 12, 31⟩

/-- Python `date + timedelta(days=k)`: shift by `k` calendar days. -/
def addDays (d : Date) (k : Int) : Date :=
  if 0 ≤ k then Nat.iterate nextDate k.toNat d else Nat.iterate prevDate (-k).toNat d

/-- DateCalc.date_increment (TimeLogic.py lines 38-51): unit dispatch followed
by `timedelta` day addition. There is no else-raise: a unit tag that is not
`week(s)`, `month(s)` or `year(s)` leaves the increment unchanged, i.e. it is
silently treated as a count of days. -/
def date_increment (date : Date) (increment : Int) (increment_unit : String) : Date :=
  let inc :=
    if increment_unit = "week(s)" then increment * 7
    else if increment_unit = "month(s)" then increment * 30
    else if increment_unit = "year(s)" then increment * 365
    else increment
  addDays date inc

/-- Zero-padding to two digits, as in Python's %02d / isoformat fields. -/
def pad2 (n : Nat) : String :=
  if n < 10 then ("0" ++ toString n) else toString n

/-- Zero-padding to four digits for the year field of isoformat. -/
def pad4 (n : Nat) : String :=
  if n < 10 then ("000" ++ toString n)
  else if n < 100 then ("00" ++ toString n)
  else if n < 1000 then ("0" ++ toString n)
  else toString n

/-- Rendering `f"{obj}"` of the datetime returned by date_increment, exactly as
GUIElements.date_calc displays it: `str(datetime)` is "YYYY-MM-DD HH:MM:SS",
and the time parsed by `strptime("%Y-%m-%d")` is always midnight. -/
def pyDatetimeStr (d : Date) : String :=
  pad4 d.year ++ "-" ++ pad2 d.month ++ "-" ++ pad2 d.day ++ " 00:00:00"

theorem isLeap_iff_dvd (y : Nat) : isLeap y ↔ (4 ∣ y ∧ (¬ (100 ∣ y) ∨ 400 ∣ y)) := by
  unfold isLeap
  omega

theorem daysBeforeYear_succ (y : Nat) (hy : 1 ≤ y) :
    daysBeforeYear (y + 1) = daysBeforeYear y + (if isLeap y then 366 else 365) := by
  obtain ⟨n, rfl⟩ : ∃ n, y = n + 1 := ⟨y - 1, by omega⟩
  simp only [daysBeforeYear, Nat.add_sub_cancel, Nat.succ_div, isLeap_iff_dvd]
  split_ifs <;> omega

theorem daysBeforeMonth_succ (y m : Nat) (h1 : 1 ≤ m) (h2 : m < 12) :
    daysBeforeMonth y (m + 1) = daysBeforeMonth y m + daysInMonth y m := by
  by_cases hL : isLeap y <;> interval_cases m <;> simp [daysBeforeMonth, daysInMonth, hL]

theorem daysBeforeMonth_12 (y : Nat) :
    daysBeforeMonth y 12 + daysInMonth y 12 = (if isLeap y then 366 else 365) := by
  by_cases hL : isLeap y <;> simp [daysBeforeMonth, daysInMonth, hL]

theorem daysInMonth_pos (y m : Nat) (h1 : 1 ≤ m) (h2 : m ≤ 12) : 1 ≤ daysInMonth y m := by
  by_cases hL : isLeap y <;> interval_cases m <;> simp [daysInMonth, hL]

theorem toOrdinal_nextDate (d : Date) (hd : d.valid) :
    (nextDate d).toOrdinal = d.toOrdinal + 1 := by
  obtain ⟨y, m, dd⟩ := d
  obtain ⟨hy, hm1, hm2, hd1, hd2⟩ := hd
  dsimp only at hy hm1 hm2 hd1 hd2
  unfold nextDate
  split_ifs with h1 h2 <;> unfold Date.toOrdinal <;> dsimp only at *
  · omega
  · have hday : dd = daysInMonth y m := by omega
    have hs := daysBeforeMonth_succ y m hm1 h2
    omega
  · have hm : m = 12 := by omega
    have hday : dd = daysInMonth y m := by omega
    subst hm
    have h12 := daysBeforeMonth_12 y
    have hsy := daysBeforeYear_succ y hy
    have hbm1 : daysBeforeMonth (y + 1) 1 = 0 := by simp [daysBeforeMonth]
    split_ifs at h12 hsy <;> omega

theorem nextDate_valid (d : Date) (hd : d.valid) : (nextDate d).valid := by
  obtain ⟨y, m, dd⟩ := d
  obtain ⟨hy, hm1, hm2, hd1, hd2⟩ := hd
  dsimp only at hy hm1 hm2 hd1 hd2
  unfold nextDate
  split_ifs with h1 h2 <;> unfold Date.valid <;> dsimp only at h1 ⊢
  · exact ⟨hy, hm1, hm2, by omega, by omega⟩
  · dsimp only at h2
    refine ⟨hy, by omega, by omega, by omega, ?_⟩
    exact daysInMonth_pos y (m + 1) (by omega) (by omega)
  · refine ⟨by omega, by omega, by omega, by omega, ?_⟩
    simp [daysInMonth]

theorem toOrdinal_addDays (d : Date) (hd : d.valid) (n : Nat) :
    (addDays d (n : Int)).toOrdinal = d.toOrdinal + n ∧ (addDays d (n : Int)).valid := by
  unfold addDays
  rw [if_pos (by exact_mod_cast Nat.zero_le n), Int.toNat_natCast]
  induction n with
  | zero => simpa using hd
  | succ k ih =>
    rw [Function.iterate_succ_apply']
    obtain ⟨ih1, ih2⟩ := ih
    refine ⟨?_, nextDate_valid _ ih2⟩
    rw [toOrdinal_nextDate _ ih2, ih1]
    omega

theorem toOrdinal_prevDate (d : Date) (hd : d.valid) (h2 : 2 ≤ d.toOrdinal) :
    (prevDate d).toOrdinal + 1 = d.toOrdinal ∧ (prevDate d).valid := by
  obtain ⟨y, m, dd⟩ := d
  obtain ⟨hy, hm1, hm2, hd1, hd2⟩ := hd
  dsimp only at hy hm1 hm2 hd1 hd2
  unfold Date.toOrdinal at h2
  dsimp only at h2
  unfold prevDate
  split_ifs with h1 hb
  · dsimp only at h1
    constructor
    · unfold Date.toOrdinal
      dsimp only
      omega
    · exact ⟨hy, hm1, hm2, by dsimp only; omega, by dsimp only; omega⟩
  · dsimp only at h1 hb
    obtain ⟨mm, rfl⟩ : ∃ mm, m = mm + 1 := ⟨m - 1, by omega⟩
    have hs := daysBeforeMonth_succ y mm (by omega) (by omega)
    constructor
    · unfold Date.toOrdinal
      dsimp only
      simp only [Nat.add_sub_cancel]
      omega
    · unfold Date.valid
      dsimp only
      simp only [Nat.add_sub_cancel]
      exact ⟨hy, by omega, by omega, daysInMonth_pos y mm (by omega) (by omega), le_refl _⟩
  · dsimp only at h1 hb
    have hdd : dd = 1 := by omega
    have hmm : m = 1 := by omega
    subst hdd hmm
    have hy2 : 2 ≤ y := by
      by_contra hc
      have hy1 : y = 1 := by omega
      subst hy1
      simp [daysBeforeYear, daysBeforeMonth] at h2
    obtain ⟨z, rfl⟩ : ∃ z, y = z + 1 := ⟨y - 1, by omega⟩
    have hsy := daysBeforeYear_succ z (by omega)
    have h12 := daysBeforeMonth_12 z
    have hdim : daysInMonth z 12 = 31 := by simp [daysInMonth]
    rw [hdim] at h12
    constructor
    · unfold Date.toOrdinal
      dsimp only
      simp only [Nat.add_sub_cancel]
      have hbm1 : daysBeforeMonth (z + 1) 1 = 0 := by simp [daysBeforeMonth]
      split_ifs at hsy h12 <;> omega
    · unfold Date.valid
      dsimp only
      simp only [Nat.add_sub_cancel]
      exact ⟨by omega, by omega, by omega, by omega, by rw [hdim]⟩

theorem toOrdinal_prevDays (d : Date) (hd : d.valid) (m : Nat) :
    m + 1 ≤ d.toOrdinal →
    (Nat.iterate prevDate m d).toOrdinal = d.toOrdinal - m ∧ (Nat.iterate prevDate m d).valid := by
  induction m with
  | zero =>
    intro _
    exact ⟨by simp, by simpa using hd⟩
  | succ j ih =>
    intro hm
    obtain ⟨ih1, ih2⟩ := ih (by omega)
    rw [Function.iterate_succ_apply']
    have h2 : 2 ≤ (Nat.iterate prevDate j d).toOrdinal := by omega
    have hp := toOrdinal_prevDate _ ih2 h2
    exact ⟨by omega, hp.2⟩

theorem toOrdinal_addDays_int (d : Date) (hd : d.valid) (k : Int)
    (hk : 1 ≤ (d.toOrdinal : Int) + k) :
    ((addDays d k).toOrdinal : Int) = (d.toOrdinal : Int) + k ∧ (addDays d k).valid := by
  rcases le_or_lt 0 k with hpos | hneg
  · obtain ⟨n, rfl⟩ : ∃ n : Nat, k = (n : Int) := ⟨k.toNat, (Int.toNat_of_nonneg hpos).symm⟩
    have h := toOrdinal_addDays d hd n
    refine ⟨?_, h.2⟩
    rw [h.1]
    push_cast
    ring
  · have hm : addDays d k = Nat.iterate prevDate (-k).toNat d := by
      unfold addDays
      rw [if_neg (by omega)]
    have hk2 : (((-k).toNat : Nat) : Int) = -k := Int.toNat_of_nonneg (by omega)
    have hmle : (-k).toNat + 1 ≤ d.toOrdinal := by omega
    obtain ⟨h1, h2⟩ := toOrdinal_prevDays d hd (-k).toNat hmle
    rw [hm]
    refine ⟨?_, h2⟩
    rw [h1]
    omega

theorem toOrdinal_le_year_end (d : Date) (hd : d.valid) :
    d.toOrdinal ≤ daysBeforeYear (d.year + 1) := by
  obtain ⟨y, m, dd⟩ := d
  obtain ⟨hy, hm1, hm2, hd1, hd2⟩ := hd
  simp only at hy hm1 hm2 hd1 hd2
  have h1 : daysBeforeMonth y m + daysInMonth y m ≤ (if isLeap y then 366 else 365) := by
    by_cases hL : isLeap y <;> interval_cases m <;> simp [daysBeforeMonth, daysInMonth, hL]
  have h2 := daysBeforeYear_succ y hy
  simp only [Date.toOrdinal]
  split_ifs at h1 h2 <;> omega

theorem daysBeforeYear_mono (y1 y2 : Nat) (h1 : 1 ≤ y1) (h : y1 ≤ y2) :
    daysBeforeYear y1 ≤ daysBeforeYear y2 := by
  induction y2 with
  | zero => omega
  | succ k ih =>
    rcases Nat.eq_or_lt_of_le h with he | hlt
    · rw [he]
    · have hk : y1 ≤ k := by omega
      have h2 := daysBeforeYear_succ k (by omega)
      have h3 := ih hk
      split_ifs at h2 <;> omega

theorem daysBeforeMonth_step (y m1 m2 : Nat) (h1 : 1 ≤ m1) (h : m1 < m2) (h2 : m2 ≤ 12) :
    daysBeforeMonth y m1 + daysInMonth y m1 ≤ daysBeforeMonth y m2 := by
  have h1u : m1 ≤ 11 := by omega
  by_cases hL : isLeap y <;> interval_cases m1 <;> interval_cases m2 <;>
    simp [daysBeforeMonth, daysInMonth, hL]

theorem toOrdinal_lt_of_lt (a b : Date) (ha : a.valid) (hb : b.valid) (h : Date.lt a b) :
    a.toOrdinal < b.toOrdinal := by
  obtain ⟨hay, ham1, ham2, had1, had2⟩ := ha
  obtain ⟨hby, hbm1, hbm2, hbd1, hbd2⟩ := hb
  rcases h with hy | ⟨hy, hm | ⟨hm, hd⟩⟩
  · have hA : a.toOrdinal ≤ daysBeforeYear (a.year + 1) :=
      toOrdinal_le_year_end a ⟨hay, ham1, ham2, had1, had2⟩
    have hB : daysBeforeYear (a.year + 1) ≤ daysBeforeYear b.year :=
      daysBeforeYear_mono _ _ (by omega) (by omega)
    have hC : daysBeforeYear b.year < b.toOrdinal := by
      unfold Date.toOrdinal
      omega
    omega
  · have hstep := daysBeforeMonth_step a.year a.month b.month ham1 hm hbm2
    unfold Date.toOrdinal
    rw [← hy]
    omega
  · unfold Date.toOrdinal
    rw [← hy, ← hm]
    omega

theorem dateLt_trichotomy (a b : Date) : Date.lt a b ∨ a = b ∨ Date.lt b a := by
  obtain ⟨y1, m1, d1⟩ := a
  obtain ⟨y2, m2, d2⟩ := b
  simp only [Date.lt, Date.mk.injEq]
  omega

theorem dateLt_iff_toOrdinal (a b : Date) (ha : a.valid) (hb : b.valid) :
    Date.lt a b ↔ a.toOrdinal < b.toOrdinal := by
  constructor
  · exact toOrdinal_lt_of_lt a b ha hb
  · intro h
    rcases dateLt_trichotomy a b with hlt | heq | hgt
    · exact hlt
    · rw [heq] at h
      omega
    · have := toOrdinal_lt_of_lt b a hb ha hgt
      omega

theorem day_calculator_none_iff (s e : Date) (hs : s.valid) (he : e.valid) :
    day_calculator s e = none ↔ e.toOrdinal < s.toOrdinal := by
  have hlt := dateLt_iff_toOrdinal e s he hs
  constructor
  · intro h
    by_cases hc : Date.lt e s
    · exact hlt.mp hc
    · simp [day_calculator, hc] at h
  · intro h
    simp [day_calculator, hlt.mpr h]

theorem day_calculator_eq_of_le (s e : Date) (hs : s.valid) (he : e.valid)
    (h : s.toOrdinal ≤ e.toOrdinal) :
    day_calculator s e = some ((e.toOrdinal : Int) - s.toOrdinal) := by
  have hlt := dateLt_iff_toOrdinal e s he hs
  have hc : ¬ Date.lt e s := fun hcc => by
    have := hlt.mp hcc
    omega
  simp [day_calculator, hc]

/-- C4: day_calculator raises its ordering error exactly when the end date is
chronologically earlier than the start date (datetime's field-by-field
comparison agrees with the day-ordinal order on valid dates); otherwise it
returns the non-negative count of whole days from start to end, which is zero
on equal dates; from 2023-01-01 to 2023-01-31 it returns 30. -/
theorem day_calculator_spec (s e : Date) (hs : s.valid) (he : e.valid) :
    (day_calculator s e = none ↔ e.toOrdinal < s.toOrdinal) ∧
    (s.toOrdinal ≤ e.toOrdinal →
      day_calculator s e = some ((e.toOrdinal : Int) - s.toOrdinal) ∧
      0 ≤ (e.toOrdinal : Int) - s.toOrdinal) ∧
    day_calculator s s = some 0 ∧
    day_calculator ⟨2023, 1, 1⟩ ⟨2023, 1, 31⟩ = some 30 := by
  refine ⟨day_calculator_none_iff s e hs he, ?_, ?_, by decide⟩
  · intro h
    refine ⟨day_calculator_eq_of_le s e hs he h, by omega⟩
  · have := day_calculator_eq_of_le s s hs hs le_rfl
    simpa using this

theorem day_calculator_spec_witness :
    day_calculator ⟨2023, 1, 1⟩ ⟨2023, 1, 31⟩ = some 30 ∧
    day_calculator ⟨2024, 2, 29⟩ ⟨2024, 2, 29⟩ = some 0 :=
  ⟨(day_calculator_spec ⟨2023, 1, 1⟩ ⟨2023, 1, 31⟩ (by decide) (by decide)).2.2.2,
   (day_calculator_spec ⟨2024, 2, 29⟩ ⟨2024, 2, 29⟩ (by decide) (by decide)).2.2.1⟩

set_option maxRecDepth 100000 in
/-- C6 (amended): date_increment turns its signed amount into days with the
fixed multipliers (weeks times 7, months times 30, years times 365, days
unchanged) and shifts the date by that many calendar days with ordinary
rollover, forward for positive amounts and backward for negative ones (as long
as the result stays inside the calendar, which is where Python raises
OverflowError), so the ordinal moves by exactly the converted day count and
the result is again a valid date; adding 2 month(s) to 2023-01-01 gives the
date 2023-03-02 and adding -2 month(s) to 2023-03-02 gives back 2023-01-01,
but the program renders the result as "2023-03-02 00:00:00" (str of a
midnight datetime), not as bare "2023-03-02". -/
theorem date_increment_spec (d : Date) (hd : d.valid) (k : Int) :
    (1 ≤ (d.toOrdinal : Int) + k →
      ((date_increment d k ("day(s)")).toOrdinal : Int) = (d.toOrdinal : Int) + k ∧
      (date_increment d k ("day(s)")).valid) ∧
    (1 ≤ (d.toOrdinal : Int) + 7 * k →
      ((date_increment d k ("week(s)")).toOrdinal : Int) = (d.toOrdinal : Int) + 7 * k ∧
      (date_increment d k ("week(s)")).valid) ∧
    (1 ≤ (d.toOrdinal : Int) + 30 * k →
      ((date_increment d k ("month(s)")).toOrdinal : Int) = (d.toOrdinal : Int) + 30 * k ∧
      (date_increment d k ("month(s)")).valid) ∧
    (1 ≤ (d.toOrdinal : Int) + 365 * k →
      ((date_increment d k ("year(s)")).toOrdinal : Int) = (d.toOrdinal : Int) + 365 * k ∧
      (date_increment d k ("year(s)")).valid) ∧
    date_increment ⟨2023, 1, 1⟩ 2 ("month(s)") = ⟨2023, 3, 2⟩ ∧
    date_increment ⟨2023, 3, 2⟩ (-2) ("month(s)") = ⟨2023, 1, 1⟩ ∧
    pyDatetimeStr (date_increment ⟨2023, 1, 1⟩ 2 ("month(s)")) = ("2023-03-02 00:00:00") := by
  have e1 : date_increment d k ("day(s)") = addDays d k := rfl
  have e7 : date_increment d k ("week(s)") = addDays d (k * 7) := rfl
  have e30 : date_increment d k ("month(s)") = addDays d (k * 30) := rfl
  have e365 : date_increment d k ("year(s)") = addDays d (k * 365) := rfl
  refine ⟨?_, ?_, ?_, ?_, by decide, by decide, by decide⟩
  · intro h
    rw [e1]
    exact toOrdinal_addDays_int d hd k h
  · intro h
    rw [e7]
    have hw := toOrdinal_addDays_int d hd (k * 7) (by omega)
    refine ⟨?_, hw.2⟩
    rw [hw.1]
    ring
  · intro h
    rw [e30]
    have hw := toOrdinal_addDays_int d hd (k * 30) (by omega)
    refine ⟨?_, hw.2⟩
    rw [hw.1]
    ring
  · intro h
    rw [e365]
    have hw := toOrdinal_addDays_int d hd (k * 365) (by omega)
    refine ⟨?_, hw.2⟩
    rw [hw.1]
    ring

set_option maxRecDepth 100000 in
theorem date_increment_spec_witness :
    ((date_increment ⟨2024, 3, 1⟩ (-1) ("day(s)")).toOrdinal : Int) =
      ((⟨2024, 3, 1⟩ : Date).toOrdinal : Int) + (-1) ∧
    (date_increment ⟨2024, 3, 1⟩ (-1) ("day(s)")).valid ∧
    ((date_increment ⟨2024, 3, 1⟩ (-1) ("week(s)")).toOrdinal : Int) =
      ((⟨2024, 3, 1⟩ : Date).toOrdinal : Int) + 7 * (-1) ∧
    (date_increment ⟨2024, 3, 1⟩ (-1) ("week(s)")).valid ∧
    date_increment ⟨2023, 1, 1⟩ 2 ("month(s)") = ⟨2023, 3, 2⟩ ∧
    date_increment ⟨2023, 3, 2⟩ (-2) ("month(s)") = ⟨2023, 1, 1⟩ ∧
    pyDatetimeStr (date_increment ⟨2023, 1, 1⟩ 2 ("month(s)")) = ("2023-03-02 00:00:00") := by
  obtain ⟨h1, h7, _, _, hc1, hc2, hc3⟩ := date_increment_spec ⟨2024, 3, 1⟩ (by decide) (-1)
  obtain ⟨h1a, h1b⟩ := h1 (by decide)
  obtain ⟨h7a, h7b⟩ := h7 (by decide)
  exact ⟨h1a, h1b, h7a, h7b, hc1, hc2, hc3⟩

set_option maxRecDepth 100000 in
/-- C6 counterexample: the program shows the incremented date through the
f-string over the returned datetime, which is "YYYY-MM-DD HH:MM:SS"; the
claimed bare "YYYY-MM-DD" output never appears. -/
theorem date_increment_format_cex :
    pyDatetimeStr (date_increment ⟨2023, 1, 1⟩ 2 ("month(s)")) = ("2023-03-02 00:00:00") ∧
    pyDatetimeStr (date_increment ⟨2023, 1, 1⟩ 2 ("month(s)")) ≠ ("2023-03-02") := by decide

/-- C7: second_calculator does not check ordering (it is total on valid dates),
returns (start - end) expressed in seconds, is negative exactly when the end
date is chronologically after the start date, and is antisymmetric. -/
theorem second_calculator_spec (s e : Date) (hs : s.valid) (he : e.valid) :
    second_calculator s e = ((s.toOrdinal : Int) - e.toOrdinal) * 86400 ∧
    second_calculator s e = -second_calculator e s ∧
    (s.toOrdinal < e.toOrdinal → second_calculator s e < 0) := by
  refine ⟨rfl, by unfold second_calculator; ring, ?_⟩
  intro h
  unfold second_calculator
  have h1 : (s.toOrdinal : Int) - e.toOrdinal < 0 := by omega
  exact mul_neg_of_neg_of_pos h1 (by norm_num)

theorem second_calculator_spec_witness :
    second_calculator ⟨2023, 5, 1⟩ ⟨2023, 5, 3⟩ =
      (((⟨2023, 5, 1⟩ : Date).toOrdinal : Int) - (⟨2023, 5, 3⟩ : Date).toOrdinal) * 86400 ∧
    second_calculator ⟨2023, 5, 1⟩ ⟨2023, 5, 3⟩ = -second_calculator ⟨2023, 5, 3⟩ ⟨2023, 5, 1⟩ ∧
    ((⟨2023, 5, 1⟩ : Date).toOrdinal < (⟨2023, 5, 3⟩ : Date).toOrdinal →
      second_calculator ⟨2023, 5, 1⟩ ⟨2023, 5, 3⟩ < 0) :=
  second_calculator_spec ⟨2023, 5, 1⟩ ⟨2023, 5, 3⟩ (by decide) (by decide)

/-- C10: second_calculator returns exactly -86400 times the signed whole-day
difference from start to end, hence always an integer multiple of 86400, and
whenever the end date is not earlier it is -86400 times the day_calculator
result. -/
theorem second_calculator_day_relation (s e : Date) (hs : s.valid) (he : e.valid) :
    second_calculator s e = -86400 * ((e.toOrdinal : Int) - s.toOrdinal) ∧
    (86400 : Int) ∣ second_calculator s e ∧
    (s.toOrdinal ≤ e.toOrdinal →
      day_calculator s e = some ((e.toOrdinal : Int) - s.toOrdinal) ∧
      second_calculator s e = -86400 * ((e.toOrdinal : Int) - s.toOrdinal)) := by
  refine ⟨by unfold second_calculator; ring,
    ⟨(s.toOrdinal : Int) - e.toOrdinal, by unfold second_calculator; ring⟩, ?_⟩
  intro h
  exact ⟨day_calculator_eq_of_le s e hs he h, by unfold second_calculator; ring⟩

theorem second_calculator_day_relation_witness :
    second_calculator ⟨2023, 1, 1⟩ ⟨2023, 1, 31⟩ =
      -86400 * (((⟨2023, 1, 31⟩ : Date).toOrdinal : Int) - (⟨2023, 1, 1⟩ : Date).toOrdinal) ∧
    (86400 : Int) ∣ second_calculator ⟨2023, 1, 1⟩ ⟨2023, 1, 31⟩ ∧
    ((⟨2023, 1, 1⟩ : Date).toOrdinal ≤ (⟨2023, 1, 31⟩ : Date).toOrdinal →
      day_calculator ⟨2023, 1, 1⟩ ⟨2023, 1, 31⟩ =
        some (((⟨2023, 1, 31⟩ : Date).toOrdinal : Int) - (⟨2023, 1, 1⟩ : Date).toOrdinal) ∧
      second_calculator ⟨2023, 1, 1⟩ ⟨2023, 1, 31⟩ =
        -86400 * (((⟨2023, 1, 31⟩ : Date).toOrdinal : Int) - (⟨2023, 1, 1⟩ : Date).toOrdinal)) :=
  second_calculator_day_relation ⟨2023, 1, 1⟩ ⟨2023, 1, 31⟩ (by decide) (by decide)

/-- Clock time value as held by Python `datetime.time`: (hour, minute, second). -/
structure ClockTime where
  hour : Nat
  minute : Nat
  second : Nat
  deriving DecidableEq

/-- Validity of a wall-clock time (what `time.fromisoformat` guarantees). -/
def ClockTime.valid (t : ClockTime) : Prop :=
  t.hour ≤ 23 ∧ t.minute ≤ 59 ∧ t.second ≤ 59

instance (t : ClockTime) : Decidable t.valid := by unfold ClockTime.valid; infer_instance

/-- TimeCalc.str_to_seconds (TimeLogic.py lines 117-122) on an already split
HH:MM:SS value: `sum(a * b for a, b in zip([3600, 60, 1], fields))`. -/
def str_to_seconds (t : ClockTime) : Nat :=
  3600 * t.hour + 60 * t.minute + t.second

/-- Comparison of `datetime.time` values: lexicographic on (hour, minute, second). -/
def ClockTime.lt (a b : ClockTime) : Prop :=
  a.hour < b.hour ∨
    (a.hour = b.hour ∧ (a.minute < b.minute ∨ (a.minute = b.minute ∧ a.second < b.second)))

instance (a b : ClockTime) : Decidable (ClockTime.lt a b) := by unfold ClockTime.lt; infer_instance

/-- TimeCalc.time_gap (TimeLogic.py lines 124-130): raises ValueError (`none`)
when `fromisoformat(start) > fromisoformat(end)`, else returns the difference
of the two str_to_seconds values. -/
def time_gap (start_time end_time : ClockTime) : Option Int :=
  if ClockTime.lt end_time start_time then none
  else some ((str_to_seconds end_time : Int) - str_to_seconds start_time)

theorem clockLt_iff (a b : ClockTime) (ha : a.valid) (hb : b.valid) :
    ClockTime.lt a b ↔ str_to_seconds a < str_to_seconds b := by
  obtain ⟨h1, m1, s1⟩ := a
  obtain ⟨h2, m2, s2⟩ := b
  obtain ⟨ha1, ha2, ha3⟩ := ha
  obtain ⟨hb1, hb2, hb3⟩ := hb
  dsimp only at *
  unfold ClockTime.lt str_to_seconds
  dsimp only
  omega

/-- C5: time_gap raises its ordering error exactly when start is strictly later
than end under same-day clock comparison (datetime.time's lexicographic order
coincides with comparing seconds since midnight), and otherwise returns
secondsSinceMidnight(end) - secondsSinceMidnight(start); the gap from 08:00:00
to 10:30:15 is 9015 seconds. -/
theorem time_gap_spec (s e : ClockTime) (hs : s.valid) (he : e.valid) :
    (time_gap s e = none ↔ str_to_seconds e < str_to_seconds s) ∧
    (str_to_seconds s ≤ str_to_seconds e →
      time_gap s e = some ((str_to_seconds e : Int) - str_to_seconds s)) ∧
    time_gap ⟨8, 0, 0⟩ ⟨10, 30, 15⟩ = some 9015 := by
  have hlt := clockLt_iff e s he hs
  refine ⟨?_, ?_, by decide⟩
  · constructor
    · intro h
      by_cases hc : ClockTime.lt e s
      · exact hlt.mp hc
      · simp [time_gap, hc] at h
    · intro h
      simp [time_gap, hlt.mpr h]
  · intro h
    have hc : ¬ ClockTime.lt e s := fun hcc => by
      have := hlt.mp hcc
      omega
    simp [time_gap, hc]

theorem time_gap_spec_witness :
    (time_gap ⟨8, 0, 0⟩ ⟨10, 30, 15⟩ = none ↔
      str_to_seconds ⟨10, 30, 15⟩ < str_to_seconds ⟨8, 0, 0⟩) ∧
    (str_to_seconds ⟨8, 0, 0⟩ ≤ str_to_seconds ⟨10, 30, 15⟩ →
      time_gap ⟨8, 0, 0⟩ ⟨10, 30, 15⟩ =
        some ((str_to_seconds ⟨10, 30, 15⟩ : Int) - str_to_seconds ⟨8, 0, 0⟩)) ∧
    time_gap ⟨8, 0, 0⟩ ⟨10, 30, 15⟩ = some 9015 :=
  time_gap_spec ⟨8, 0, 0⟩ ⟨10, 30, 15⟩ (by decide) (by decide)

/-- Python str.split for a one-character separator; yields [''] on ''. -/
def splitOnChar (sep : Char) : List Char → List (List Char)
  | [] => [[]]
  | c :: cs =>
    let r := splitOnChar sep cs
    if c = sep then [] :: r
    else
      match r with
      | [] => [[c]]
      | f :: rest => (c :: f) :: rest

/-- Python str.lstrip('0'): drop every leading '0'. -/
def lstripZero (s : List Char) : List Char := s.dropWhile (fun c => c == '0')

/-- Numeric value of a decimal digit character. -/
def charVal (c : Char) : Nat := c.toNat - 48

/-- Python int(s) on a split time field: succeeds exactly on nonempty all-digit
text (signs, spaces and underscores never survive the split of a time string),
and raises ValueError (`none`) otherwise — in particular on the empty string. -/
def parseNat (s : List Char) : Option Nat :=
  if s ≠ [] ∧ s.all Char.isDigit then
    some (s.foldl (fun acc c => 10 * acc + charVal c) 0)
  else none

/-- The "H:MM:SS" trailer of str(timedelta): unpadded hour, zero-padded minute
and second, applied to the in-day remainder. -/
def hmsChunk (rem : Nat) : String :=
  toString (rem / 3600) ++ ":" ++ pad2 (rem % 3600 / 60) ++ ":" ++ pad2 (rem % 60)

/-- Rendering str(datetime.timedelta(seconds=t)): the duration is normalized to
(days, in-day remainder) by floor division — Lean's Int `/` and `%` agree with
Python's `//` and `%` for a positive modulus — and a day-count prefix appears
whenever days is nonzero, spelled " day, " for 1 or -1 and " days, " otherwise. -/
def timedeltaStr (t : Int) : String :=
  if t / 86400 = 0 then hmsChunk (t % 86400).toNat
  else
    toString (t / 86400) ++
      (if t / 86400 = 1 ∨ t / 86400 = -1 then (" day, ") else (" days, ")) ++
      hmsChunk ((t % 86400).toNat)

/-- TimeCalc.time_increment (TimeLogic.py lines 132-152): unit conversion of the
increment, then `[int(time[i].lstrip('0')) for i in range(3)]`, then timedelta
addition and str(). `none` models the places Python raises: IndexError when the
split yields fewer than three fields, ValueError when a stripped field is not a
nonempty digit string — including the empty result of stripping "00". -/
def time_increment (time : String) (increment : Int) (increment_unit : String) : Option String :=
  let inc :=
    if increment_unit = "hrs" then increment * 3600
    else if increment_unit = "min" then increment * 60
    else increment
  match splitOnChar ':' time.data with
  | f0 :: f1 :: f2 :: _ =>
    match parseNat (lstripZero f0), parseNat (lstripZero f1), parseNat (lstripZero f2) with
    | some hours, some minutes, some seconds =>
      some (timedeltaStr ((3600 * hours + 60 * minutes + seconds : Nat) + inc))
    | _, _, _ => none
  | _ => none

/-- C2 refuted (code bug): on canonical zero-padded input the field parse of
time_increment fails whenever a field is all zeros — "00".lstrip('0') is empty
and int('') raises ValueError — although a nonzero padded field like "05"
parses fine. The code's own comment says the strip exists "so no problem
occurs when converting to int". -/
theorem time_increment_zero_field_bug :
    time_increment ("00:10:05") 7 ("min") = none ∧
    parseNat (lstripZero (("00").data)) = none ∧
    parseNat (lstripZero (("05").data)) = some 5 := by decide

/-- C3 counterexample: time_increment("23:50:00", 20, "min") does not return
"1 day(s), 0:10:00" — the seconds field "00" already makes the call raise; and
no successful call ever spells "day(s)" (Python prints "1 day," / "N days,"). -/
theorem time_increment_overflow_cex :
    time_increment ("23:50:00") 20 ("min") = none ∧
    time_increment ("23:50:00") 20 ("min") ≠ some ("1 day(s), 0:10:00") := by decide

/-- C3 (amended): for inputs whose fields do parse, the summed seconds are
rendered by Python's timedelta formatting — plain "H:MM:SS" while the total
stays below 24 hours, and with a day-count prefix " day, "/" days, " once it
overflows; e.g. 23:50:01 plus 20 min gives "1 day, 0:10:01" and 01:02:03 plus
2 hrs gives "3:02:03". -/
theorem timedelta_format_spec (t : Int) (h0 : 0 ≤ t) :
    (t < 86400 → timedeltaStr t = hmsChunk t.toNat) ∧
    (86400 ≤ t → 1 ≤ t / 86400 ∧
      timedeltaStr t =
        toString (t / 86400) ++ (if t / 86400 = 1 then (" day, ") else (" days, ")) ++
          hmsChunk ((t % 86400).toNat)) ∧
    time_increment ("23:50:01") 20 ("min") = some ("1 day, 0:10:01") ∧
    time_increment ("01:02:03") 2 ("hrs") = some ("3:02:03") := by
  refine ⟨?_, ?_, by decide, by decide⟩
  · intro hlt
    have hd : t / 86400 = 0 := Int.ediv_eq_zero_of_lt h0 hlt
    have hr : t % 86400 = t := Int.emod_eq_of_lt h0 hlt
    simp [timedeltaStr, hd, hr]
  · intro hge
    have hd1 : 1 ≤ t / 86400 := by
      rw [Int.le_ediv_iff_mul_le (by norm_num)]
      omega
    have hd0 : ¬ t / 86400 = 0 := by omega
    have hdm : ¬ t / 86400 = -1 := by omega
    refine ⟨hd1, ?_⟩
    by_cases h1 : t / 86400 = 1
    · simp [timedeltaStr, hd0, h1]
    · simp [timedeltaStr, hd0, h1, hdm]

theorem timedelta_format_spec_witness :
    ((87001 : Int) < 86400 → timedeltaStr 87001 = hmsChunk (87001 : Int).toNat) ∧
    ((86400 : Int) ≤ 87001 → 1 ≤ (87001 : Int) / 86400 ∧
      timedeltaStr 87001 =
        toString ((87001 : Int) / 86400) ++
          (if (87001 : Int) / 86400 = 1 then (" day, ") else (" days, ")) ++
          hmsChunk (((87001 : Int) % 86400).toNat)) ∧
    time_increment ("23:50:01") 20 ("min") = some ("1 day, 0:10:01") ∧
    time_increment ("01:02:03") 2 ("hrs") = some ("3:02:03") :=
  timedelta_format_spec 87001 (by decide)

/-- Multiplier table of TimeConvert._to_sec (TimeLogic.py lines 66-77), the
`conversion` dict; `none` models the KeyError raised on a missing key. Note
that the dict has no 'sec' entry. -/
def to_sec_mult (unit : String) : Option Int :=
  if unit = "min" then some 60
  else if unit = "hour" then some (60 * 60)
  else if unit = "day(s)" then some (24 * 60 * 60)
  else if unit = "week(s)" then some (7 * 24 * 60 * 60)
  else if unit = "year(s)" then some (365 * 24 * 60 * 60)
  else none

/-- Python round(x, 3) modelled on exact rationals: nearest multiple of 1/1000.
Mathlib's round breaks ties upward while Python breaks float ties to even; no
statement below sits on a tie, so the models agree on everything proved here. -/
def round3 (q : ℚ) : ℚ := ((round (q * 1000) : ℤ) : ℚ) / 1000

/-- TimeConvert (TimeLogic.py lines 54-108): the constructor stores num,
in_unit and out_unit and immediately computes self.second = self._to_sec(). -/
structure TimeConvert where
  num : ℚ
  in_unit : String
  out_unit : String

/-- TimeConvert._to_sec: `self.num * conversion[self.in_unit]`; `none` is the
KeyError escape, raised already during construction. -/
def TimeConvert.to_sec (tc : TimeConvert) : Option ℚ :=
  (to_sec_mult tc.in_unit).map fun mult => tc.num * (mult : ℚ)

/-- TimeConvert.output: dict dispatch on out_unit over the _to_* methods.
_to_min and _to_hour divide without rounding; _to_days rounds to 3 decimals;
_to_weeks and _to_year divide the already-rounded day count and round again.
An out_unit outside the dict is a KeyError (`none`). -/
def TimeConvert.output (tc : TimeConvert) : Option ℚ :=
  tc.to_sec.bind fun second =>
    if tc.out_unit = "sec" then some second
    else if tc.out_unit = "min" then some (second / 60)
    else if tc.out_unit = "hour" then some (second / 60 / 60)
    else if tc.out_unit = "day(s)" then some (round3 (second / 60 / 60 / 24))
    else if tc.out_unit = "week(s)" then some (round3 (round3 (second / 60 / 60 / 24) / 7))
    else if tc.out_unit = "year(s)" then some (round3 (round3 (second / 60 / 60 / 24) / 365))
    else none

/-- Conversion as invoked by GUIElements.unit_converter: construct TimeConvert
and call output(). -/
def convert (x : ℚ) (in_unit out_unit : String) : Option ℚ :=
  TimeConvert.output ⟨x, in_unit, out_unit⟩

theorem abs_round3_sub_le (q : ℚ) : |round3 q - q| ≤ 1 / 2000 := by
  unfold round3
  have h := abs_sub_round (q * 1000)
  rw [abs_sub_comm] at h
  have e : ((round (q * 1000) : ℤ) : ℚ) / 1000 - q = (((round (q * 1000) : ℤ) : ℚ) - q * 1000) / 1000 := by
    ring
  rw [e, abs_div, show |(1000 : ℚ)| = 1000 from abs_of_pos (by norm_num)]
  linarith

theorem convert_eval (x : ℚ) (u v : String) (mult : Int) (hu : to_sec_mult u = some mult) :
    convert x u v =
      (if v = "sec" then some (x * (mult : ℚ))
       else if v = "min" then some (x * (mult : ℚ) / 60)
       else if v = "hour" then some (x * (mult : ℚ) / 60 / 60)
       else if v = "day(s)" then some (round3 (x * (mult : ℚ) / 60 / 60 / 24))
       else if v = "week(s)" then some (round3 (round3 (x * (mult : ℚ) / 60 / 60 / 24) / 7))
       else if v = "year(s)" then some (round3 (round3 (x * (mult : ℚ) / 60 / 60 / 24) / 365))
       else none) := by
  unfold convert TimeConvert.output TimeConvert.to_sec
  dsimp only
  rw [hu]
  rfl

/-- C1 (amended): the identity conversion convert(x, u, u) = x holds, within
3-decimal rounding tolerance, for the five units actually present in the
_to_sec dict (min, hour, day(s), week(s), year(s)); and convert(1, "year(s)",
"day(s)") = 365 exactly. A source tag of "sec" or "year" is a KeyError. -/
theorem convert_identity_spec (x : ℚ) :
    convert x ("min") ("min") = some x ∧
    convert x ("hour") ("hour") = some x ∧
    (∃ y, convert x ("day(s)") ("day(s)") = some y ∧ |y - x| ≤ 1 / 1000) ∧
    (∃ y, convert x ("week(s)") ("week(s)") = some y ∧ |y - x| ≤ 1 / 1000) ∧
    (∃ y, convert x ("year(s)") ("year(s)") = some y ∧ |y - x| ≤ 1 / 1000) ∧
    convert 1 ("year(s)") ("day(s)") = some 365 := by
  have hdiv : ∀ c q : ℚ, 0 < c → |round3 q / c - q / c| ≤ 1 / 2000 / c := by
    intro c q hc
    have h := abs_round3_sub_le q
    rw [div_sub_div_same, abs_div, abs_of_pos hc]
    exact (div_le_div_right hc).mpr h
  refine ⟨?_, ?_, ?_, ?_, ?_, ?_⟩
  · rw [convert_eval x ("min") ("min") 60 (by decide), if_neg (by decide), if_pos rfl,
      show x * ((60 : Int) : ℚ) / 60 = x by push_cast; ring]
  · rw [convert_eval x ("hour") ("hour") 3600 (by decide), if_neg (by decide),
      if_neg (by decide), if_pos rfl, show x * ((3600 : Int) : ℚ) / 60 / 60 = x by push_cast; ring]
  · refine ⟨round3 x, ?_, ?_⟩
    · rw [convert_eval x ("day(s)") ("day(s)") 86400 (by decide), if_neg (by decide),
        if_neg (by decide), if_neg (by decide), if_pos rfl,
        show x * ((86400 : Int) : ℚ) / 60 / 60 / 24 = x by push_cast; ring]
    · have := abs_round3_sub_le x
      linarith
  · refine ⟨round3 (round3 (7 * x) / 7), ?_, ?_⟩
    · rw [convert_eval x ("week(s)") ("week(s)") 604800 (by decide), if_neg (by decide),
        if_neg (by decide), if_neg (by decide), if_neg (by decide), if_pos rfl,
        show x * ((604800 : Int) : ℚ) / 60 / 60 / 24 = 7 * x by push_cast; ring]
    · have h1 := abs_round3_sub_le (round3 (7 * x) / 7)
      have h2 := hdiv 7 (7 * x) (by norm_num)
      have h3 := abs_sub_le (round3 (round3 (7 * x) / 7)) (round3 (7 * x) / 7) x
      rw [show (7 : ℚ) * x / 7 = x by ring] at h2
      calc |round3 (round3 (7 * x) / 7) - x|
          ≤ |round3 (round3 (7 * x) / 7) - round3 (7 * x) / 7| + |round3 (7 * x) / 7 - x| := h3
        _ ≤ 1 / 2000 + 1 / 2000 / 7 := add_le_add h1 h2
        _ ≤ 1 / 1000 := by norm_num
  · refine ⟨round3 (round3 (365 * x) / 365), ?_, ?_⟩
    · rw [convert_eval x ("year(s)") ("year(s)") 31536000 (by decide), if_neg (by decide),
        if_neg (by decide), if_neg (by decide), if_neg (by decide), if_neg (by decide),
        if_pos rfl,
        show x * ((31536000 : Int) : ℚ) / 60 / 60 / 24 = 365 * x by push_cast; ring]
    · have h1 := abs_round3_sub_le (round3 (365 * x) / 365)
      have h2 := hdiv 365 (365 * x) (by norm_num)
      have h3 := abs_sub_le (round3 (round3 (365 * x) / 365)) (round3 (365 * x) / 365) x
      rw [show (365 : ℚ) * x / 365 = x by ring] at h2
      calc |round3 (round3 (365 * x) / 365) - x|
          ≤ |round3 (round3 (365 * x) / 365) - round3 (365 * x) / 365| +
              |round3 (365 * x) / 365 - x| := h3
        _ ≤ 1 / 2000 + 1 / 2000 / 365 := add_le_add h1 h2
        _ ≤ 1 / 1000 := by norm_num
  · rw [convert_eval 1 ("year(s)") ("day(s)") 31536000 (by decide), if_neg (by decide),
      if_neg (by decide), if_neg (by decide), if_pos rfl,
      show (1 : ℚ) * ((31536000 : Int) : ℚ) / 60 / 60 / 24 = 365 by push_cast; ring]
    unfold round3
    rw [show (365 : ℚ) * 1000 = ((365000 : ℤ) : ℚ) by norm_num, round_intCast]
    norm_num

/-- C1 counterexample: a source unit of "sec" raises KeyError inside _to_sec
(the dict keys are only min, hour, day(s), week(s), year(s)), so
convert(3600, "sec", "hour") errors instead of returning 1.0, even though the
GUI offers "sec" as an input unit; the tag "year" fails the same way. -/
theorem convert_sec_source_cex :
    convert 3600 ("sec") ("hour") = none ∧
    convert 3600 ("sec") ("hour") ≠ some 1 ∧
    convert 1 ("year") ("day(s)") = none := by
  refine ⟨rfl, ?_, rfl⟩
  intro h
  have hn : (none : Option ℚ) = some 1 := h
  exact Option.noConfusion hn

/-- C9 (amended): only the day(s), week(s) and year(s) targets are rounded.
Targets sec, min and hour are returned unrounded; day(s) is the exact quantity
rounded to 3 decimals; week(s) and year(s) divide the already-rounded day
count and round again (a double rounding), instead of rounding the exact
converted quantity. -/
theorem convert_rounding_spec (x : ℚ) (u : String) (mult : Int)
    (hu : to_sec_mult u = some mult) :
    convert x u ("sec") = some (x * (mult : ℚ)) ∧
    convert x u ("min") = some (x * (mult : ℚ) / 60) ∧
    convert x u ("hour") = some (x * (mult : ℚ) / 3600) ∧
    convert x u ("day(s)") = some (round3 (x * (mult : ℚ) / 86400)) ∧
    convert x u ("week(s)") = some (round3 (round3 (x * (mult : ℚ) / 86400) / 7)) ∧
    convert x u ("year(s)") = some (round3 (round3 (x * (mult : ℚ) / 86400) / 365)) := by
  have e2 : x * (mult : ℚ) / 60 / 60 = x * (mult : ℚ) / 3600 := by
    rw [div_div]
    norm_num
  have e3 : x * (mult : ℚ) / 60 / 60 / 24 = x * (mult : ℚ) / 86400 := by
    rw [div_div, div_div]
    norm_num
  refine ⟨?_, ?_, ?_, ?_, ?_, ?_⟩
  · rw [convert_eval x u ("sec") mult hu, if_pos rfl]
  · rw [convert_eval x u ("min") mult hu, if_neg (by decide), if_pos rfl]
  · rw [convert_eval x u ("hour") mult hu, if_neg (by decide), if_neg (by decide), if_pos rfl, e2]
  · rw [convert_eval x u ("day(s)") mult hu, if_neg (by decide), if_neg (by decide),
      if_neg (by decide), if_pos rfl, e3]
  · rw [convert_eval x u ("week(s)") mult hu, if_neg (by decide), if_neg (by decide),
      if_neg (by decide), if_neg (by decide), if_pos rfl, e3]
  · rw [convert_eval x u ("year(s)") mult hu, if_neg (by decide), if_neg (by decide),
      if_neg (by decide), if_neg (by decide), if_neg (by decide), if_pos rfl, e3]

theorem convert_rounding_spec_witness :
    convert 1 ("min") ("sec") = some (1 * ((60 : Int) : ℚ)) ∧
    convert 1 ("min") ("min") = some (1 * ((60 : Int) : ℚ) / 60) ∧
    convert 1 ("min") ("hour") = some (1 * ((60 : Int) : ℚ) / 3600) ∧
    convert 1 ("min") ("day(s)") = some (round3 (1 * ((60 : Int) : ℚ) / 86400)) ∧
    convert 1 ("min") ("week(s)") = some (round3 (round3 (1 * ((60 : Int) : ℚ) / 86400) / 7)) ∧
    convert 1 ("min") ("year(s)") = some (round3 (round3 (1 * ((60 : Int) : ℚ) / 86400) / 365)) :=
  convert_rounding_spec 1 ("min") 60 (by decide)

/-- C9 counterexample: a conversion targeting minutes or hours is returned
unrounded: convert(1, "min", "hour") is exactly 1/60 = 0.01666..., which is
not its 3-decimal rounding 0.017. -/
theorem convert_min_unrounded_cex :
    convert 1 ("min") ("hour") = some (1 / 60) ∧
    round3 (1 / 60) = 17 / 1000 ∧
    (1 / 60 : ℚ) ≠ 17 / 1000 := by
  refine ⟨?_, ?_, by norm_num⟩
  · rw [convert_eval 1 ("min") ("hour") 60 (by decide), if_neg (by decide), if_neg (by decide),
      if_pos rfl, show (1 : ℚ) * ((60 : Int) : ℚ) / 60 / 60 = 1 / 60 by push_cast; ring]
  · unfold round3
    rw [show (1 / 60 : ℚ) * 1000 = 50 / 3 by norm_num, round_eq,
      show ⌊(50 / 3 : ℚ) + 1 / 2⌋ = 17 from Int.floor_eq_iff.mpr (by norm_num)]
    norm_num

/-- C8 (amended): only TimeConvert raises on an unrecognized unit tag (the dict
lookups fail with KeyError); date_increment silently treats any tag that is
not week(s)/month(s)/year(s) as a day count, and time_increment silently
treats any tag that is not hrs/min as seconds — no error is raised and the
amount is interpreted under those default units. -/
theorem unit_tag_fallthrough (u v : String) (x : ℚ) (d : Date) (inc : Int) (t : String)
    (i2 : Int) (hu : to_sec_mult u = none)
    (h1 : u ≠ "week(s)") (h2 : u ≠ "month(s)") (h3 : u ≠ "year(s)")
    (h4 : u ≠ "hrs") (h5 : u ≠ "min") :
    convert x u v = none ∧
    date_increment d inc u = addDays d inc ∧
    time_increment t i2 u = time_increment t i2 ("sec") := by
  refine ⟨?_, ?_, ?_⟩
  · unfold convert TimeConvert.output TimeConvert.to_sec
    dsimp only
    rw [hu]
    rfl
  · unfold date_increment
    dsimp only
    rw [if_neg h1, if_neg h2, if_neg h3]
  · unfold time_increment
    dsimp only
    rw [if_neg h4, if_neg h5, if_neg (by decide : ¬ ("sec" : String) = "hrs"),
      if_neg (by decide : ¬ ("sec" : String) = "min")]

theorem unit_tag_fallthrough_witness :
    convert 1 ("fortnight") ("hour") = none ∧
    date_increment ⟨2023, 1, 1⟩ 1 ("fortnight") = addDays ⟨2023, 1, 1⟩ 1 ∧
    time_increment ("12:34:56") 10 ("fortnight") = time_increment ("12:34:56") 10 ("sec") :=
  unit_tag_fallthrough ("fortnight") ("hour") 1 ⟨2023, 1, 1⟩ 1 ("12:34:56") 10
    (by decide) (by decide) (by decide) (by decide) (by decide) (by decide)

/-- C8 counterexample: unrecognized unit tags do not raise in the increment
operations — date_increment interprets "fortnight" as days and time_increment
interprets "bogus" as seconds, silently producing a result. -/
theorem unit_tag_cex :
    date_increment ⟨2023, 1, 1⟩ 1 ("fortnight") = ⟨2023, 1, 2⟩ ∧
    time_increment ("12:34:56") 10 ("bogus") = some ("12:35:06") := by decide

end TimeLogic
